import Mathlib

/-!
Verification of `conversion_xml_to_sql.py` (SAP HANA Calculation View → SQL
converter). The Python program is shallowly embedded: the XML tree produced by
`xml.etree.ElementTree` becomes the inductive `XmlElem`; Python dictionaries
become association lists with insertion-order preserving update
(`dictInsert` / `dictGet`); Python string primitives (`str.replace`,
`str.lstrip`, `str.strip`, `str.upper`, `str.join`) are modelled by executable
functions on `List Char`; the fallible parts of `process_file` (attribute
access on `None`) return `Except String`.
-/

/-- An XML element as exposed by `xml.etree.ElementTree`: a tag, an attribute
map, the list of child elements in document order, and the text content
(`None` when the element has no text). -/
inductive XmlElem : Type where
  | mk : String → List (String × String) → List XmlElem → Option String → XmlElem

def XmlElem.tag : XmlElem → String
  | .mk t _ _ _ => t

def XmlElem.attrs : XmlElem → List (String × String)
  | .mk _ a _ _ => a

def XmlElem.children : XmlElem → List XmlElem
  | .mk _ _ c _ => c

def XmlElem.text : XmlElem → Option String
  | .mk _ _ _ tx => tx

/-- `elem.get(key)` of ElementTree: attribute lookup, `None` when absent. -/
def XmlElem.get (e : XmlElem) (k : String) : Option String :=
  (e.attrs.find? (fun p => p.1 == k)).map (fun p => p.2)

/-- `elem.get(key, default)` of ElementTree. -/
def XmlElem.getD (e : XmlElem) (k d : String) : String :=
  (e.get k).getD d

/-- `elem.find('./tag')`: the first direct child with the given tag. -/
def findChild (e : XmlElem) (t : String) : Option XmlElem :=
  e.children.find? (fun c => c.tag == t)

/-- `elem.findall('./tag')`: all direct children with the given tag, in
document order. -/
def findChildren (e : XmlElem) (t : String) : List XmlElem :=
  e.children.filter (fun c => c.tag == t)

/-- `elem.findtext('./tag')`: text of the first matching child (`""` when the
child exists but has no text), `None` when there is no such child. -/
def findText (e : XmlElem) (t : String) : Option String :=
  (findChild e t).map (fun c => c.text.getD "")

/-- Lookup in a Python dict modelled as an association list (first match). -/
def dictGet {κ ν : Type} [BEq κ] (m : List (κ × ν)) (k : κ) : Option ν :=
  (m.find? (fun p => p.1 == k)).map (fun p => p.2)

/-- `d[k] = v` on a Python dict: an existing key keeps its position and gets
the new value, a new key is appended (insertion order is preserved, as in
CPython dicts). -/
def dictInsert {κ ν : Type} [BEq κ] (m : List (κ × ν)) (k : κ) (v : ν) :
    List (κ × ν) :=
  if m.any (fun p => p.1 == k) then
    m.map (fun p => if p.1 == k then (p.1, v) else p)
  else
    m ++ [(k, v)]

/-- Python `f"{x}"` on a value that may be `None`: `None` prints as `"None"`. -/
def pyStr : Option String → String
  | none => "None"
  | some s => s

/-- Python `s.lstrip('#')`: drop every leading `#`. -/
def pyLstripHash (s : String) : String :=
  String.mk (s.toList.dropWhile (fun c => c == '#'))

/-- Python `s.upper()` (the attribute values involved are ASCII). -/
def pyUpper (s : String) : String :=
  String.mk (s.toList.map Char.toUpper)

/-- Python whitespace recognised by `str.strip()` (the ASCII part, which is
all that occurs in these documents). -/
def pyIsSpace (c : Char) : Bool :=
  c == ' ' || c == '\t' || c == '\n' || c == '\r' || c == '\x0b' || c == '\x0c'

/-- Python `s.strip()`. -/
def pyStrip (s : String) : String :=
  String.mk (((s.toList.dropWhile pyIsSpace).reverse.dropWhile pyIsSpace).reverse)

/-- Python `sep.join(parts)`. -/
def pyJoin (sep : String) : List String → String
  | [] => ""
  | [s] => s
  | s :: rest => s ++ sep ++ pyJoin sep rest

/-- Does the pattern occur at the head of the text? -/
def startsWithL : List Char → List Char → Bool
  | [], _ => true
  | _ :: _, [] => false
  | p :: ps, c :: cs => p == c && startsWithL ps cs

/-- Worker for `pyReplace`. The fuel argument makes the recursion structural;
each step consumes at least one character of the text (the pattern is
non-empty at every call site), so fuel equal to the text length suffices and
the `0` branch is never reached. -/
def pyReplaceGo (pat rep : List Char) : Nat → List Char → List Char
  | _, [] => []
  | 0, l => l
  | n + 1, c :: rest =>
    if startsWithL pat (c :: rest) then
      rep ++ pyReplaceGo pat rep n ((c :: rest).drop pat.length)
    else
      c :: pyReplaceGo pat rep n rest

/-- Python `s.replace(pat, rep)` for a non-empty pattern: replace every
non-overlapping occurrence, scanning left to right. (Both call sites pass a
pattern that contains two quote characters, hence never empty; for an empty
pattern this model returns the string unchanged.) -/
def pyReplace (s pat rep : String) : String :=
  if pat.toList.isEmpty then s
  else String.mk (pyReplaceGo pat.toList rep.toList s.toList.length s.toList)

/-- The default `date_func` of `replace_filter_expressions`
(`TO_CHAR(CURRENT_DATE, 'YYYYMMDD')`). -/
def defaultDateFunc : String := "TO_CHAR(CURRENT_DATE, \x27YYYYMMDD\x27)"

/-- `replace_filter_expressions(filter_str, alias, target_to_source_map,
calculated_attribs, date_func)` — lines 6–42 of the source. The Python
defaults (`calculated_attribs=None`, `date_func=defaultDateFunc`) are passed
explicitly by callers of this model. `target_to_source_map` is iterated in
dict insertion order, which the association-list representation preserves. -/
def replace_filter_expressions (filter_str aliasStr : String)
    (target_to_source_map : List (String × String))
    (calculated_attribs : Option (List (Option String × Option String)))
    (date_func : String) : String :=
  if filter_str == "" then ""
  else
    let s1 := pyReplace filter_str "\x22today\x22" date_func
    target_to_source_map.foldl
      (fun acc p => pyReplace acc ("\x22" ++ p.1 ++ "\x22") (aliasStr ++ "." ++ p.2))
      s1

/-- Lines 97–106: build `data_sources_dict` from `root.find('./dataSources')`.
Keys are `ds.get('id')` (possibly `None`, hence `Option String`); a
`DataSource` without a `columnObject` child contributes nothing. -/
def buildDataSourcesDict (root : XmlElem) : List (Option String × String) :=
  match findChild root "dataSources" with
  | none => []
  | some dss =>
    (findChildren dss "DataSource").foldl
      (fun acc ds =>
        match findChild ds "columnObject" with
        | none => acc
        | some column_obj =>
          dictInsert acc (ds.get "id")
            (pyStr (column_obj.get "schemaName") ++ "." ++
              pyStr (column_obj.get "columnObjectName")))
      []

/-- Table reference for a `node` id (line 151):
`data_sources_dict.get(ds_id, ds_id)`. -/
def tableRef (dsDict : List (Option String × String)) (ds_id : String) : String :=
  (dictGet dsDict (some ds_id)).getD ds_id

/-- Lines 127–133: the `join_type_map` lookup (`None` when absent). -/
def joinTypeMap (k : String) : Option String :=
  if k == "INNER" then some "INNER JOIN"
  else if k == "LEFTOUTER" then some "LEFT JOIN"
  else if k == "RIGHTOUTER" then some "RIGHT JOIN"
  else if k == "FULLOUTER" then some "FULL JOIN"
  else none

/-- Lines 123–135: `calc_view.get('joinType', 'inner').upper()` pushed through
`join_type_map`, defaulting to `INNER JOIN`. -/
def resolveJoinType (joinTypeAttr : Option String) : String :=
  (joinTypeMap (pyUpper (joinTypeAttr.getD "inner"))).getD "INNER JOIN"

/-- Lines 140–141: `join_attributes`, the `name` attributes of the
`<joinAttribute>` children in document order (each possibly `None`). -/
def joinAttrs (cv : XmlElem) : List (Option String) :=
  (findChildren cv "joinAttribute").map (fun ja => ja.get "name")

/-- Lines 153–160 (and 253–258 for projections): the `(source, target)`
mapping pairs of an `<input>`, keeping only pairs where both attributes are
present and non-empty (`if source_col and target_col`). -/
def mappingPairs (inp : XmlElem) : List (String × String) :=
  (findChildren inp "mapping").filterMap
    (fun mapping =>
      match mapping.get "source", mapping.get "target" with
      | some src, some tgt => if src == "" || tgt == "" then none else some (src, tgt)
      | _, _ => none)

/-- Lines 144–162: `input_info`, the list of `(alias, tableName, mappings)`
triples. The enumeration index `i` ranges over ALL `<input>` children (the
Python `enumerate` runs before the `continue`), and inputs whose `node`
attribute is absent or empty (`if not node_ref`) are dropped. -/
def joinInputInfo (dsDict : List (Option String × String)) (cv : XmlElem) :
    List (String × String × List (String × String)) :=
  (findChildren cv "input").enum.filterMap
    (fun p =>
      match p.2.get "node" with
      | none => none
      | some node_ref =>
        if node_ref == "" then none
        else
          let ds_id := pyLstripHash node_ref
          some ("T" ++ toString (p.1 + 1), tableRef dsDict ds_id, mappingPairs p.2))

/-- Lines 170–176: the SELECT column list, concatenating the mappings of each
retained input in order; `src == tgt` emits `alias.src`, otherwise
`alias.src AS tgt`. -/
def selectColumnsJoin (input_info : List (String × String × List (String × String))) :
    List String :=
  input_info.foldl
    (fun acc info =>
      info.2.2.foldl
        (fun acc2 m =>
          acc2 ++ [if m.1 == m.2 then info.1 ++ "." ++ m.1
                   else info.1 ++ "." ++ m.1 ++ " AS " ++ m.2])
        acc)
    []

/-- Lines 191–199: the FROM clause anchors on the first retained input. -/
def joinFromClause : List (String × String × List (String × String)) → String
  | [] => ""
  | info :: _ => "FROM " ++ info.2.1 ++ " AS " ++ info.1

/-- Lines 201–221: one JOIN clause per retained input after the first; every
ON condition equates `base_alias.attr = current_alias.attr` for each join
attribute (star topology anchored at the first retained input). -/
def joinJoinClauses (join_type : String) (join_attributes : List (Option String)) :
    List (String × String × List (String × String)) → List String
  | [] => []
  | base :: rest =>
    rest.map
      (fun cur =>
        let conditions := join_attributes.map
          (fun ja => base.1 ++ "." ++ pyStr ja ++ " = " ++ cur.1 ++ "." ++ pyStr ja)
        join_type ++ " " ++ cur.2.1 ++ " AS " ++ cur.1 ++ " ON " ++
          pyJoin " AND " conditions)

/-- Lines 122–234: the `Calculation:JoinView` branch. Returns `none` when the
node is skipped (`if not input_info: continue`), otherwise the SQL text
block. -/
def processJoinView (dsDict : List (Option String × String)) (cv : XmlElem) :
    Option String :=
  let view_id := cv.getD "id" "UnknownView"
  let join_type := resolveJoinType (cv.get "joinType")
  let join_attributes := joinAttrs cv
  let input_info := joinInputInfo dsDict cv
  if input_info.isEmpty then none
  else
    let select_columns := selectColumnsJoin input_info
    let from_clause := joinFromClause input_info
    let join_clauses := joinJoinClauses join_type join_attributes input_info
    let join_query_lines :=
      [view_id ++ " AS (", "    SELECT",
       "        " ++ pyJoin ",\n        " select_columns,
       "    " ++ from_clause] ++
      join_clauses.map (fun jc => "    " ++ jc) ++ ["),"]
    some (pyJoin "\n" join_query_lines)

/-- Lines 282–288: `calculated_attribs`, a dict from `calculatedViewAttribute`
id to the text of its `<formula>` child (`findtext`). -/
def calcAttribsOf (cv : XmlElem) : List (Option String × Option String) :=
  match findChild cv "calculatedViewAttributes" with
  | none => []
  | some ca =>
    (findChildren ca "calculatedViewAttribute").foldl
      (fun m cva => dictInsert m (cva.get "id") (findText cva "formula"))
      []

/-- Lines 267–275: the projection's SELECT columns and the
`target -> source` dict, built in one pass over the mapping pairs. -/
def projSelectAndMap (aliasStr : String) (pm : List (String × String)) :
    List String × List (String × String) :=
  pm.foldl
    (fun acc m =>
      (acc.1 ++ [if m.1 == m.2 then aliasStr ++ "." ++ m.1
                 else aliasStr ++ "." ++ m.1 ++ " AS " ++ m.2],
       dictInsert acc.2 m.2 m.1))
    ([], [])

/-- Lines 311–319: assemble a projection block from its pieces
(`where_clause = ""` means no WHERE line). -/
def projBlock (view_id : String) (select_columns : List String)
    (node_id aliasStr where_clause : String) : String :=
  let from_clause := "FROM " ++ node_id ++ " AS " ++ aliasStr
  pyJoin "\n"
    ([view_id ++ " AS (", "    SELECT",
      "        " ++ pyJoin ",\n        " select_columns,
      "    " ++ from_clause] ++
     (if where_clause == "" then [] else ["    " ++ where_clause]) ++ ["),"])

/-- Lines 237–321: the `Calculation:ProjectionView` branch. `.ok none` when
the node is skipped (`if not projection_inputs: continue`); `.error` models
the two `AttributeError`s the Python code can raise: `node_ref.lstrip('#')`
with `node_ref = None` (line 248) and `filter_node.text.strip()` with
`text = None` (line 297). -/
def processProjectionView (cv : XmlElem) : Except String (Option String) :=
  let view_id := cv.getD "id" "UnknownView"
  match findChildren cv "input" with
  | [] => .ok none
  | proj_input :: _ =>
    match proj_input.get "node" with
    | none => .error "AttributeError: NoneType object has no attribute lstrip"
    | some node_ref =>
      let node_id := pyLstripHash node_ref
      let aliasStr := "J1"
      let projection_mappings := mappingPairs proj_input
      let sm := projSelectAndMap aliasStr projection_mappings
      let calculated_attribs := calcAttribsOf cv
      match findChild cv "filter" with
      | none => .ok (some (projBlock view_id sm.1 node_id aliasStr ""))
      | some filter_node =>
        match filter_node.text with
        | none => .error "AttributeError: NoneType object has no attribute strip"
        | some raw =>
          let filter_expr := pyStrip raw
          let filter_expr_sql :=
            replace_filter_expressions filter_expr aliasStr sm.2
              (some calculated_attribs) defaultDateFunc
          let where_clause :=
            if filter_expr_sql == "" then ""
            else "WHERE\n        " ++ filter_expr_sql
          .ok (some (projBlock view_id sm.1 node_id aliasStr where_clause))

/-- The `xsi:type` attribute key (line 118). -/
def xsiTypeKey : String := "\x7bhttp://www.w3.org/2001/XMLSchema-instance\x7dtype"

/-- Lines 116–321: dispatch one `<calculationView>` on its `xsi:type`.
`.ok none` = no block emitted, `.ok (some b)` = block `b` appended,
`.error` = exception. Any type other than the two recognised ones falls
through the `if/elif` with no effect. -/
def processCalcView (dsDict : List (Option String × String)) (cv : XmlElem) :
    Except String (Option String) :=
  let xsi_type := cv.get xsiTypeKey
  if xsi_type == some "Calculation:JoinView" then
    .ok (processJoinView dsDict cv)
  else if xsi_type == some "Calculation:ProjectionView" then
    processProjectionView cv
  else
    .ok none

/-- The loop over `<calculationView>` children, accumulating
`all_sql_blocks`; an exception aborts the whole file (nothing is written). -/
def processViews (dsDict : List (Option String × String)) :
    List XmlElem → Except String (List String)
  | [] => .ok []
  | cv :: rest =>
    match processCalcView dsDict cv with
    | .error e => .error e
    | .ok b =>
      match processViews dsDict rest with
      | .error e => .error e
      | .ok bs =>
        match b with
        | none => .ok bs
        | some blk => .ok (blk :: bs)

/-- `root.find('.//tag')`: first descendant (document order, depth-first,
root excluded) with the given tag — used at line 109 for
`calculationViews`. -/
def findDescL (t : String) : List XmlElem → Option XmlElem
  | [] => none
  | XmlElem.mk tg a cs tx :: rest =>
    if tg == t then some (XmlElem.mk tg a cs tx)
    else
      match findDescL t cs with
      | some r => some r
      | none => findDescL t rest
termination_by l => sizeOf l
decreasing_by
  all_goals simp
  omega

/-- Lines 86–331 of `process_file`, per parsed root element. `.ok none`: the
early returns (no `<calculationViews>` found, or no usable blocks) where
nothing is written; `.ok (some sql)`: the text written to the output file;
`.error`: an uncaught exception. -/
def process_file (root : XmlElem) : Except String (Option String) :=
  let data_sources_dict := buildDataSourcesDict root
  match findDescL "calculationViews" root.children with
  | none => .ok none
  | some cvp =>
    match processViews data_sources_dict (findChildren cvp "calculationView") with
    | .error e => .error e
    | .ok [] => .ok none
    | .ok blocks => .ok (some ("WITH\n\n" ++ pyJoin "\n\n" blocks))

deriving instance DecidableEq for Except

/-! ## Spec-side definitions and concrete fixtures used by the theorems -/

/-- Spec-side reading of phase (b) of the filter rewrite: apply the
`(target, source)` replacements one after the other, in map order. -/
def applyTargetReplacements (aliasStr : String) :
    List (String × String) → String → String
  | [], s => s
  | p :: rest, s =>
    applyTargetReplacements aliasStr rest
      (pyReplace s ("\x22" ++ p.1 ++ "\x22") (aliasStr ++ "." ++ p.2))

/-- Spec-side reading of one SELECT entry: bare `alias.src` when source and
target coincide, `alias.src AS tgt` otherwise. -/
def selectEntry (aliasStr : String) (m : String × String) : String :=
  if m.1 == m.2 then aliasStr ++ "." ++ m.1
  else aliasStr ++ "." ++ m.1 ++ " AS " ++ m.2

/-- An `<input>` child is retained iff its `node` attribute is present and
non-empty (the `if not node_ref: continue` test). -/
def hasUsableNode (inp : XmlElem) : Bool :=
  match inp.get "node" with
  | none => false
  | some s => s != ""

/-- The alias rule as the spec claims it: `T<i>` numbered 1-based among the
RETAINED inputs only. -/
def aliasesAmongRetained (inputs : List XmlElem) : List String :=
  ((inputs.filter hasUsableNode).enum).map (fun p => "T" ++ toString (p.1 + 1))

/-- The alias rule the code implements: `T<i>` numbered 1-based among ALL
`<input>` children, dropped ones included. -/
def aliasesAmongAll (inputs : List XmlElem) : List String :=
  inputs.enum.filterMap
    (fun p => if hasUsableNode p.2 then some ("T" ++ toString (p.1 + 1)) else none)

def inpA : XmlElem := XmlElem.mk "input" [("node", "#A")] [] none

def inpB : XmlElem := XmlElem.mk "input" [("node", "#B")] [] none

/-- A 2-input `leftOuter` join on `MANDT`, `KOKRS` (the spec's example). -/
def cvJoinExample : XmlElem :=
  XmlElem.mk "calculationView"
    [(xsiTypeKey, "Calculation:JoinView"), ("id", "Join_1"), ("joinType", "leftOuter")]
    [inpA, inpB,
     XmlElem.mk "joinAttribute" [("name", "MANDT")] [] none,
     XmlElem.mk "joinAttribute" [("name", "KOKRS")] [] none] none

def dsDictExample : List (Option String × String) :=
  [(some "A", "T1table"), (some "B", "T2table")]

/-- A 3-input join whose FIRST input has no `node` attribute. -/
def cvJoinSkipFirst : XmlElem :=
  XmlElem.mk "calculationView"
    [(xsiTypeKey, "Calculation:JoinView"), ("id", "Join_2")]
    [XmlElem.mk "input" [] [] none, inpA, inpB] none

/-- A projection whose only input child has no `node` attribute. -/
def cvProjNoNode : XmlElem :=
  XmlElem.mk "calculationView"
    [(xsiTypeKey, "Calculation:ProjectionView"), ("id", "Proj_1")]
    [XmlElem.mk "input" [] [] none] none

/-- A join whose only input child has no `node` attribute (zero retained). -/
def cvJoinNoNode : XmlElem :=
  XmlElem.mk "calculationView"
    [(xsiTypeKey, "Calculation:JoinView"), ("id", "Join_3")]
    [XmlElem.mk "input" [] [] none] none

/-- A projection with no `<input>` children at all. -/
def cvProjNoInput : XmlElem :=
  XmlElem.mk "calculationView"
    [(xsiTypeKey, "Calculation:ProjectionView"), ("id", "Proj_2")] [] none

/-- A calculation view with an unrecognised type discriminator. -/
def cvUnionType : XmlElem :=
  XmlElem.mk "calculationView"
    [(xsiTypeKey, "Calculation:UnionView"), ("id", "Union_1")]
    [inpA, inpB] none

/-- An `<input node="#Join_1">` with one identity mapping. -/
def inpJoin1 : XmlElem :=
  XmlElem.mk "input" [("node", "#Join_1")]
    [XmlElem.mk "mapping" [("source", "MANDT"), ("target", "MANDT")] [] none] none

/-- An empty `<filter/>` element: its text is `None`. -/
def filterNoneElem : XmlElem := XmlElem.mk "filter" [] [] none

/-- A `<filter>` element whose text is whitespace that strips to `""`. -/
def filterBlankElem : XmlElem := XmlElem.mk "filter" [] [] (some "   ")

/-- A projection with an empty `<filter/>` element (text `None`). -/
def cvProjEmptyFilter : XmlElem :=
  XmlElem.mk "calculationView"
    [(xsiTypeKey, "Calculation:ProjectionView"), ("id", "Proj_3")]
    [inpJoin1, filterNoneElem] none

/-- A projection whose `<filter>` text is whitespace that strips to `""`. -/
def cvProjBlankFilter : XmlElem :=
  XmlElem.mk "calculationView"
    [(xsiTypeKey, "Calculation:ProjectionView"), ("id", "Proj_4")]
    [inpJoin1, filterBlankElem] none

/-! ## Claim theorems -/

/-- C9: the result of `replace_filter_expressions` is independent of its
`calculated_attribs` argument — any two values (including `None` and any
dictionary) give identical output. -/
theorem replace_filter_ignores_calculated_attribs
    (fs aliasStr df : String) (m : List (String × String))
    (ca1 ca2 : Option (List (Option String × Option String))) :
    replace_filter_expressions fs aliasStr m ca1 df =
      replace_filter_expressions fs aliasStr m ca2 df := rfl

/-- The fold of phase (b) agrees with the sequential spec-side recursion. -/
theorem foldl_applyTargetReplacements (aliasStr : String) :
    ∀ (m : List (String × String)) (s : String),
      m.foldl (fun acc p =>
        pyReplace acc ("\x22" ++ p.1 ++ "\x22") (aliasStr ++ "." ++ p.2)) s =
      applyTargetReplacements aliasStr m s
  | [], _ => rfl
  | _ :: rest, s => foldl_applyTargetReplacements aliasStr rest _

/-- C3: on a non-empty filter string the rewriter first replaces every
occurrence of the quoted token `"today"` with the date function, then applies
the `(target, source)` replacements of the map in insertion order, each
rewriting `"target"` to `alias.source`; everything else passes through. -/
theorem replace_filter_two_phase (fs aliasStr df : String)
    (m : List (String × String))
    (ca : Option (List (Option String × Option String)))
    (h : fs ≠ "") :
    replace_filter_expressions fs aliasStr m ca df =
      applyTargetReplacements aliasStr m (pyReplace fs "\x22today\x22" df) := by
  unfold replace_filter_expressions
  rw [if_neg (by simpa using h)]
  exact foldl_applyTargetReplacements aliasStr m _

/-- Witness for C3 at the spec's example:
`"today" <= "DATBI"` with map `{"DATBI": "DATBI"}` and alias `J1` becomes
`TO_CHAR(CURRENT_DATE, 'YYYYMMDD') <= J1.DATBI`. -/
theorem replace_filter_two_phase_witness :
    ("\x22today\x22 <= \x22DATBI\x22" : String) ≠ "" ∧
    replace_filter_expressions "\x22today\x22 <= \x22DATBI\x22" "J1"
        [("DATBI", "DATBI")] none defaultDateFunc =
      applyTargetReplacements "J1" [("DATBI", "DATBI")]
        (pyReplace "\x22today\x22 <= \x22DATBI\x22" "\x22today\x22" defaultDateFunc) ∧
    replace_filter_expressions "\x22today\x22 <= \x22DATBI\x22" "J1"
        [("DATBI", "DATBI")] none defaultDateFunc =
      "TO_CHAR(CURRENT_DATE, \x27YYYYMMDD\x27) <= J1.DATBI" :=
  ⟨by decide,
   replace_filter_two_phase "\x22today\x22 <= \x22DATBI\x22" "J1" defaultDateFunc
     [("DATBI", "DATBI")] none (by decide),
   by decide⟩

/-- C5: the join type is resolved from the attribute (default `"inner"` when
absent) case-insensitively — it depends only on the upper-cased value — with
the fixed table INNER→INNER JOIN, LEFTOUTER→LEFT JOIN, RIGHTOUTER→RIGHT JOIN,
FULLOUTER→FULL JOIN, and every unrecognised value (e.g. `"bogus"`) resolving
to INNER JOIN. -/
theorem join_type_resolution :
    (∀ v w : String, pyUpper v = pyUpper w →
      resolveJoinType (some v) = resolveJoinType (some w)) ∧
    resolveJoinType none = "INNER JOIN" ∧
    (∀ v : String, pyUpper v = "INNER" → resolveJoinType (some v) = "INNER JOIN") ∧
    (∀ v : String, pyUpper v = "LEFTOUTER" → resolveJoinType (some v) = "LEFT JOIN") ∧
    (∀ v : String, pyUpper v = "RIGHTOUTER" → resolveJoinType (some v) = "RIGHT JOIN") ∧
    (∀ v : String, pyUpper v = "FULLOUTER" → resolveJoinType (some v) = "FULL JOIN") ∧
    (∀ v : String,
      pyUpper v ≠ "INNER" → pyUpper v ≠ "LEFTOUTER" →
      pyUpper v ≠ "RIGHTOUTER" → pyUpper v ≠ "FULLOUTER" →
      resolveJoinType (some v) = "INNER JOIN") ∧
    resolveJoinType (some "bogus") = "INNER JOIN" := by
  refine ⟨fun v w h => ?_, by decide, fun v h => ?_, fun v h => ?_, fun v h => ?_,
    fun v h => ?_, fun v h1 h2 h3 h4 => ?_, by decide⟩
  · simp only [resolveJoinType, Option.getD_some]
    rw [h]
  · simp [resolveJoinType, joinTypeMap, beq_iff_eq, h]
  · simp [resolveJoinType, joinTypeMap, beq_iff_eq, h]
  · simp [resolveJoinType, joinTypeMap, beq_iff_eq, h]
  · simp [resolveJoinType, joinTypeMap, beq_iff_eq, h]
  · simp [resolveJoinType, joinTypeMap, beq_iff_eq, h1, h2, h3, h4]

/-- Witness for C5: `"leftOuter"` upper-cases to `"LEFTOUTER"` and resolves
to `LEFT JOIN`. -/
theorem join_type_resolution_witness :
    pyUpper "leftOuter" = "LEFTOUTER" ∧
    resolveJoinType (some "leftOuter") = "LEFT JOIN" :=
  ⟨by decide, join_type_resolution.2.2.2.1 "leftOuter" (by decide)⟩

/-- Appending one mapped element at a time is mapping. -/
theorem foldl_snoc_map {α β : Type} (f : α → β) :
    ∀ (l : List α) (acc : List β),
      l.foldl (fun a x => a ++ [f x]) acc = acc ++ l.map f
  | [], acc => (List.append_nil acc).symm
  | x :: rest, acc => by
    simp only [List.foldl_cons, List.map_cons]
    rw [foldl_snoc_map f rest]
    simp

/-- C6: every SELECT entry is `alias.source` when source equals target and
`alias.source AS target` otherwise, and the SELECT list is exactly the
mapping pairs in declaration order — concatenated across inputs in order for
joins, and in mapping order for projections. -/
theorem select_list_entries :
    (∀ input_info : List (String × String × List (String × String)),
      selectColumnsJoin input_info =
        (input_info.map (fun info => info.2.2.map (selectEntry info.1))).flatten) ∧
    (∀ (aliasStr : String) (pm : List (String × String)),
      (projSelectAndMap aliasStr pm).1 = pm.map (selectEntry aliasStr)) := by
  constructor
  · intro input_info
    suffices h : ∀ (l : List (String × String × List (String × String)))
        (acc : List String),
        l.foldl (fun acc info => info.2.2.foldl (fun acc2 m =>
          acc2 ++ [selectEntry info.1 m]) acc) acc =
        acc ++ (l.map (fun info => info.2.2.map (selectEntry info.1))).flatten by
      exact (h input_info []).trans (List.nil_append _)
    intro l
    induction l with
    | nil => intro acc; simp
    | cons info rest ih =>
      intro acc
      simp only [List.foldl_cons, List.map_cons, List.flatten]
      rw [foldl_snoc_map (selectEntry info.1) info.2.2 acc, ih]
      simp
  · intro aliasStr pm
    suffices h : ∀ (l : List (String × String)) (acc : List String)
        (d : List (String × String)),
        (l.foldl (fun acc m =>
          (acc.1 ++ [selectEntry aliasStr m], dictInsert acc.2 m.2 m.1)) (acc, d)).1 =
        acc ++ l.map (selectEntry aliasStr) by
      exact (h pm [] []).trans (List.nil_append _)
    intro l
    induction l with
    | nil => intro acc d; simp
    | cons m rest ih =>
      intro acc d
      simp only [List.foldl_cons]
      rw [ih]
      simp [selectEntry]

/-- C1: with at least two retained inputs the emitted FROM/JOIN text anchors
on the first retained input, and each subsequent retained input contributes
one `<joinType> <table> AS <alias> ON <cond>` clause whose condition is the
AND-conjunction, over every join attribute in document order, of
`<baseAlias>.<attr> = <currentAlias>.<attr>` — a star anchored at the first
retained input, never a chain. -/
theorem join_star_topology (dsDict : List (Option String × String)) (cv : XmlElem)
    (base : String × String × List (String × String))
    (rest : List (String × String × List (String × String)))
    (hinfo : joinInputInfo dsDict cv = base :: rest) (hrest : rest ≠ []) :
    joinFromClause (joinInputInfo dsDict cv) =
      "FROM " ++ base.2.1 ++ " AS " ++ base.1 ∧
    joinJoinClauses (resolveJoinType (cv.get "joinType")) (joinAttrs cv)
        (joinInputInfo dsDict cv) =
      rest.map (fun cur =>
        resolveJoinType (cv.get "joinType") ++ " " ++ cur.2.1 ++ " AS " ++ cur.1 ++
          " ON " ++
          pyJoin " AND " ((joinAttrs cv).map (fun ja =>
            base.1 ++ "." ++ pyStr ja ++ " = " ++ cur.1 ++ "." ++ pyStr ja))) ∧
    processJoinView dsDict cv =
      some (pyJoin "\n"
        ([cv.getD "id" "UnknownView" ++ " AS (", "    SELECT",
          "        " ++ pyJoin ",\n        "
            (selectColumnsJoin (joinInputInfo dsDict cv)),
          "    " ++ joinFromClause (joinInputInfo dsDict cv)] ++
         (joinJoinClauses (resolveJoinType (cv.get "joinType")) (joinAttrs cv)
            (joinInputInfo dsDict cv)).map (fun jc => "    " ++ jc) ++ ["),"])) := by
  refine ⟨?_, ?_, ?_⟩
  · rw [hinfo]; rfl
  · rw [hinfo]; rfl
  · unfold processJoinView
    rw [hinfo]
    simp only [List.isEmpty_cons, Bool.false_eq_true, if_false]

/-- Witness for C1: 2-input join, `joinType="leftOuter"`, join attributes
`["MANDT", "KOKRS"]`, tables `T1table`, `T2table`; the FROM/JOIN text reads
`FROM T1table AS T1 LEFT JOIN T2table AS T2 ON T1.MANDT = T2.MANDT AND
T1.KOKRS = T2.KOKRS`. -/
theorem join_star_topology_witness :
    joinInputInfo dsDictExample cvJoinExample =
      ("T1", "T1table", []) :: [("T2", "T2table", [])] ∧
    ([("T2", "T2table", ([] : List (String × String)))] ≠ []) ∧
    (joinFromClause (joinInputInfo dsDictExample cvJoinExample) =
      "FROM " ++ ("T1", "T1table", ([] : List (String × String))).2.1 ++ " AS " ++
        ("T1", "T1table", ([] : List (String × String))).1 ∧
     joinJoinClauses (resolveJoinType (cvJoinExample.get "joinType"))
        (joinAttrs cvJoinExample) (joinInputInfo dsDictExample cvJoinExample) =
      [("T2", "T2table", ([] : List (String × String)))].map (fun cur =>
        resolveJoinType (cvJoinExample.get "joinType") ++ " " ++ cur.2.1 ++ " AS " ++
          cur.1 ++ " ON " ++
          pyJoin " AND " ((joinAttrs cvJoinExample).map (fun ja =>
            ("T1", "T1table", ([] : List (String × String))).1 ++ "." ++ pyStr ja ++
              " = " ++ cur.1 ++ "." ++ pyStr ja))) ∧
     processJoinView dsDictExample cvJoinExample =
      some (pyJoin "\n"
        ([cvJoinExample.getD "id" "UnknownView" ++ " AS (", "    SELECT",
          "        " ++ pyJoin ",\n        "
            (selectColumnsJoin (joinInputInfo dsDictExample cvJoinExample)),
          "    " ++ joinFromClause (joinInputInfo dsDictExample cvJoinExample)] ++
         (joinJoinClauses (resolveJoinType (cvJoinExample.get "joinType"))
            (joinAttrs cvJoinExample)
            (joinInputInfo dsDictExample cvJoinExample)).map (fun jc => "    " ++ jc) ++
         ["),"]))) ∧
    joinFromClause (joinInputInfo dsDictExample cvJoinExample) ++ " " ++
      pyJoin " " (joinJoinClauses (resolveJoinType (cvJoinExample.get "joinType"))
        (joinAttrs cvJoinExample) (joinInputInfo dsDictExample cvJoinExample)) =
      "FROM T1table AS T1 LEFT JOIN T2table AS T2 ON T1.MANDT = T2.MANDT AND T1.KOKRS = T2.KOKRS" :=
  ⟨by decide, by decide,
   join_star_topology dsDictExample cvJoinExample ("T1", "T1table", [])
     [("T2", "T2table", [])] (by decide) (by decide),
   by decide⟩

/-- C2 counterexample: in a 3-input join whose first input lacks a `node`
attribute, the two retained inputs are aliased `T2` and `T3`, not `T1` and
`T2` as the claim's retained-position rule would give. -/
theorem join_alias_retained_counterexample :
    (joinInputInfo [] cvJoinSkipFirst).map (fun x => x.1) = ["T2", "T3"] ∧
    aliasesAmongRetained (findChildren cvJoinSkipFirst "input") = ["T1", "T2"] ∧
    (joinInputInfo [] cvJoinSkipFirst).map (fun x => x.1) ≠
      aliasesAmongRetained (findChildren cvJoinSkipFirst "input") := by
  refine ⟨by decide, by decide, by decide⟩

/-- C2 amended: inputs lacking a usable `node` reference are dropped, but the
aliases `T1, T2, …` are assigned by 1-based position among ALL `<input>`
children (dropped ones included), so a join whose first of three inputs has
no `node` attribute retains inputs aliased `T2` and `T3`. -/
theorem join_alias_positions_amended (dsDict : List (Option String × String))
    (cv : XmlElem) :
    (joinInputInfo dsDict cv).map (fun x => x.1) =
      aliasesAmongAll (findChildren cv "input") := by
  unfold joinInputInfo aliasesAmongAll
  rw [List.map_filterMap]
  congr 1
  funext p
  cases hp : p.2.get "node" with
  | none => simp [hasUsableNode, hp]
  | some s =>
    by_cases hs : s = ""
    · simp [hasUsableNode, hp, hs]
    · simp [hasUsableNode, hp, hs]

/-- C8: a calculation view whose `xsi:type` is neither the Join nor the
Projection variant is silently skipped — no block, no error — and the
remaining nodes are processed exactly as if it were absent. -/
theorem unknown_type_skipped (dsDict : List (Option String × String))
    (cv : XmlElem) (rest : List XmlElem)
    (h1 : cv.get xsiTypeKey ≠ some "Calculation:JoinView")
    (h2 : cv.get xsiTypeKey ≠ some "Calculation:ProjectionView") :
    processCalcView dsDict cv = .ok none ∧
    processViews dsDict (cv :: rest) = processViews dsDict rest := by
  have hc : processCalcView dsDict cv = .ok none := by
    simp [processCalcView, beq_iff_eq, h1, h2]
  refine ⟨hc, ?_⟩
  rw [processViews, hc]
  cases hr : processViews dsDict rest with
  | error e => simp
  | ok bs => simp

/-- Witness for C8: a `Calculation:UnionView` node is skipped and processing
continues. -/
theorem unknown_type_skipped_witness :
    cvUnionType.get xsiTypeKey ≠ some "Calculation:JoinView" ∧
    cvUnionType.get xsiTypeKey ≠ some "Calculation:ProjectionView" ∧
    (processCalcView dsDictExample cvUnionType = .ok none ∧
     processViews dsDictExample (cvUnionType :: [cvJoinExample]) =
       processViews dsDictExample [cvJoinExample]) :=
  ⟨by decide, by decide,
   unknown_type_skipped dsDictExample cvUnionType [cvJoinExample]
     (by decide) (by decide)⟩

/-- C4 counterexample: a Projection node whose only input child lacks a
`node` attribute — i.e. a node with zero usable inputs — is NOT silently
skipped: processing raises (models the `AttributeError` from
`node_ref.lstrip('#')` with `node_ref = None`). -/
theorem degenerate_projection_raises_counterexample :
    processCalcView [] cvProjNoNode =
      .error "AttributeError: NoneType object has no attribute lstrip" ∧
    (findChildren cvProjNoNode "input").all (fun inp => !hasUsableNode inp) = true ∧
    processCalcView [] cvProjNoNode ≠ .ok none := by
  refine ⟨by decide, by decide, by decide⟩

/-- C4 amended: a Join node with zero retained inputs is skipped silently,
and a Projection node with no `<input>` children at all is skipped silently,
the rest of the file being processed unchanged; but a Projection node whose
first input lacks a `node` attribute raises instead of being skipped. -/
theorem degenerate_inputs_amended (dsDict : List (Option String × String)) :
    (∀ cv : XmlElem, cv.get xsiTypeKey = some "Calculation:JoinView" →
      joinInputInfo dsDict cv = [] →
      processCalcView dsDict cv = .ok none) ∧
    (∀ cv : XmlElem, cv.get xsiTypeKey = some "Calculation:ProjectionView" →
      findChildren cv "input" = [] →
      processCalcView dsDict cv = .ok none) ∧
    (∀ (cv : XmlElem) (rest : List XmlElem),
      processCalcView dsDict cv = .ok none →
      processViews dsDict (cv :: rest) = processViews dsDict rest) := by
  refine ⟨fun cv hty hinfo => ?_, fun cv hty hinp => ?_, fun cv rest hok => ?_⟩
  · simp [processCalcView, processJoinView, hty, hinfo]
  · simp [processCalcView, processProjectionView, hty, hinp]
  · rw [processViews, hok]
    cases hr : processViews dsDict rest with
    | error e => simp
    | ok bs => simp

/-- Witness for C4 (amended): a join whose only input has no `node` and a
projection with no inputs are both skipped, and processing continues. -/
theorem degenerate_inputs_amended_witness :
    (cvJoinNoNode.get xsiTypeKey = some "Calculation:JoinView" ∧
     joinInputInfo [] cvJoinNoNode = [] ∧
     cvProjNoInput.get xsiTypeKey = some "Calculation:ProjectionView" ∧
     findChildren cvProjNoInput "input" = []) ∧
    processCalcView [] cvJoinNoNode = .ok none ∧
    processCalcView [] cvProjNoInput = .ok none ∧
    processViews [] (cvJoinNoNode :: [cvProjNoInput]) =
      processViews [] [cvProjNoInput] :=
  ⟨⟨by decide, by decide, by decide, rfl⟩,
   (degenerate_inputs_amended []).1 cvJoinNoNode (by decide) (by decide),
   (degenerate_inputs_amended []).2.1 cvProjNoInput (by decide) rfl,
   (degenerate_inputs_amended []).2.2 cvJoinNoNode [cvProjNoInput]
     ((degenerate_inputs_amended []).1 cvJoinNoNode (by decide) (by decide))⟩

/-- C10: a Projection node with at least one input (whose `node` attribute is
present) and a `<filter>` element with no text raises an exception when that
node is processed, rather than emitting the block without a WHERE clause or
skipping it; a `<filter>` whose text strips to the empty string yields the
block with no WHERE clause. -/
theorem projection_empty_filter (cv inp fe : XmlElem) (restInp : List XmlElem)
    (node_ref : String)
    (hinp : findChildren cv "input" = inp :: restInp)
    (hnode : inp.get "node" = some node_ref)
    (hf : findChild cv "filter" = some fe) :
    (fe.text = none →
      processProjectionView cv =
        .error "AttributeError: NoneType object has no attribute strip") ∧
    (∀ raw, fe.text = some raw → pyStrip raw = "" →
      processProjectionView cv =
        .ok (some (projBlock (cv.getD "id" "UnknownView")
          (projSelectAndMap "J1" (mappingPairs inp)).1
          (pyLstripHash node_ref) "J1" ""))) := by
  constructor
  · intro ht
    simp only [processProjectionView, hinp, hnode, hf, ht]
  · intro raw ht hstrip
    simp only [processProjectionView, hinp, hnode, hf, ht, hstrip]
    simp [replace_filter_expressions]

/-- Witness for C10: an empty `<filter/>` raises; a whitespace-only filter
yields the block with no WHERE clause. -/
theorem projection_empty_filter_witness :
    (findChildren cvProjEmptyFilter "input" = inpJoin1 :: [] ∧
     inpJoin1.get "node" = some "#Join_1" ∧
     findChild cvProjEmptyFilter "filter" = some filterNoneElem ∧
     filterNoneElem.text = none ∧
     findChildren cvProjBlankFilter "input" = inpJoin1 :: [] ∧
     findChild cvProjBlankFilter "filter" = some filterBlankElem ∧
     filterBlankElem.text = some "   " ∧ pyStrip "   " = "") ∧
    processProjectionView cvProjEmptyFilter =
      .error "AttributeError: NoneType object has no attribute strip" ∧
    processProjectionView cvProjBlankFilter =
      .ok (some (projBlock (cvProjBlankFilter.getD "id" "UnknownView")
        (projSelectAndMap "J1" (mappingPairs inpJoin1)).1
        (pyLstripHash "#Join_1") "J1" "")) :=
  ⟨⟨rfl, by decide, rfl, rfl, rfl, rfl, by decide, by decide⟩,
   (projection_empty_filter cvProjEmptyFilter inpJoin1 filterNoneElem []
      "#Join_1" rfl (by decide) rfl).1 rfl,
   (projection_empty_filter cvProjBlankFilter inpJoin1 filterBlankElem []
      "#Join_1" rfl (by decide) rfl).2 "   " rfl (by decide)⟩

/-- The `DataSource` children that carry a `columnObject` child — exactly the
ones that contribute a dict entry. -/
def keptDataSources (root : XmlElem) : List XmlElem :=
  match findChild root "dataSources" with
  | none => []
  | some dss =>
    (findChildren dss "DataSource").filter
      (fun ds => (findChild ds "columnObject").isSome)

/-- The dict value a kept `DataSource` contributes:
`"<schemaName>.<columnObjectName>"`. -/
def dsEntryValue (ds : XmlElem) : String :=
  match findChild ds "columnObject" with
  | none => ""
  | some co =>
    pyStr (co.get "schemaName") ++ "." ++ pyStr (co.get "columnObjectName")

/-- Inserting a fresh key appends the pair. -/
theorem dictInsert_fresh {κ ν : Type} [BEq κ] (m : List (κ × ν)) (k : κ) (v : ν)
    (h : m.any (fun p => p.1 == k) = false) :
    dictInsert m k v = m ++ [(k, v)] := by
  unfold dictInsert
  rw [h]
  simp

/-- Folding `dictInsert` over elements with pairwise-distinct keys, all fresh
for the accumulator, appends one pair per element. -/
theorem foldl_dictInsert_fresh {α κ ν : Type} [BEq κ] [LawfulBEq κ]
    (f : α → κ) (g : α → ν) :
    ∀ (l : List α) (acc : List (κ × ν)),
      (l.map f).Nodup → (∀ a ∈ l, ∀ p ∈ acc, p.1 ≠ f a) →
      l.foldl (fun acc a => dictInsert acc (f a) (g a)) acc =
        acc ++ l.map (fun a => (f a, g a))
  | [], acc, _, _ => (List.append_nil acc).symm
  | a :: rest, acc, hnodup, hfresh => by
    simp only [List.foldl_cons, List.map_cons]
    have hany : acc.any (fun p => p.1 == f a) = false := by
      rw [List.any_eq_false]
      intro p hp
      simpa using hfresh a (List.mem_cons_self a rest) p hp
    rw [dictInsert_fresh acc (f a) (g a) hany]
    have hnodup' : (rest.map f).Nodup := by
      simpa using (List.nodup_cons.mp (by simpa using hnodup)).2
    have hnotin : f a ∉ rest.map f :=
      (List.nodup_cons.mp (by simpa using hnodup)).1
    rw [foldl_dictInsert_fresh f g rest (acc ++ [(f a, g a)]) hnodup' ?_]
    · simp
    · intro b hb p hp
      rcases List.mem_append.mp hp with hacc | hsing
      · exact hfresh b (List.mem_cons_of_mem a hb) p hacc
      · have hps : p = (f a, g a) := by simpa using hsing
        subst hps
        intro hEq
        have hEq' : f a = f b := hEq
        exact hnotin (by rw [hEq']; exact List.mem_map_of_mem f hb)

/-- Looking up the key of a member in an explicit association list with
pairwise-distinct keys finds that member's value. -/
theorem dictGet_map_mem {α κ ν : Type} [BEq κ] [LawfulBEq κ]
    (f : α → κ) (g : α → ν) :
    ∀ (l : List α) (a : α), a ∈ l → (l.map f).Nodup →
      dictGet (l.map (fun x => (f x, g x))) (f a) = some (g a)
  | x :: rest, a, hmem, hnodup => by
    rcases List.mem_cons.mp hmem with heq | hrest
    · subst heq
      simp [dictGet]
    · have hnotin : f x ∉ rest.map f :=
        (List.nodup_cons.mp (by simpa using hnodup)).1
      have hne : (f x == f a) = false := by
        rw [beq_eq_false_iff_ne]
        intro hEq
        exact hnotin (hEq ▸ List.mem_map_of_mem f hrest)
      have ih := dictGet_map_mem f g rest a hrest
        (by simpa using (List.nodup_cons.mp (by simpa using hnodup)).2)
      simpa [dictGet, hne] using ih

/-- Looking up a key carried by no member gives `none`. -/
theorem dictGet_map_not_mem {α κ ν : Type} [BEq κ] [LawfulBEq κ]
    (f : α → κ) (g : α → ν) :
    ∀ (l : List α) (k : κ), (∀ a ∈ l, f a ≠ k) →
      dictGet (l.map (fun x => (f x, g x))) k = none
  | [], _, _ => rfl
  | x :: rest, k, h => by
    have hne : (f x == k) = false :=
      beq_eq_false_iff_ne.mpr (h x (List.mem_cons_self x rest))
    have ih := dictGet_map_not_mem f g rest k
      (fun a ha => h a (List.mem_cons_of_mem x ha))
    simpa [dictGet, hne] using ih

/-- `buildDataSourcesDict` is the fold of `dictInsert` over exactly the kept
`DataSource` elements. -/
theorem buildDataSourcesDict_eq_kept_fold (root : XmlElem) :
    buildDataSourcesDict root =
      (keptDataSources root).foldl
        (fun acc ds => dictInsert acc (ds.get "id") (dsEntryValue ds)) [] := by
  unfold buildDataSourcesDict keptDataSources
  cases findChild root "dataSources" with
  | none => rfl
  | some dss =>
    simp only []
    suffices h : ∀ (l : List XmlElem) (acc : List (Option String × String)),
        l.foldl (fun acc ds =>
          match findChild ds "columnObject" with
          | none => acc
          | some column_obj =>
            dictInsert acc (ds.get "id")
              (pyStr (column_obj.get "schemaName") ++ "." ++
                pyStr (column_obj.get "columnObjectName"))) acc =
        (l.filter (fun ds => (findChild ds "columnObject").isSome)).foldl
          (fun acc ds => dictInsert acc (ds.get "id") (dsEntryValue ds)) acc from
      h (findChildren dss "DataSource") []
    intro l
    induction l with
    | nil => intro acc; rfl
    | cons ds rest ih =>
      intro acc
      cases hco : findChild ds "columnObject" with
      | none => simp [hco, ih]
      | some co => simp [hco, ih, dsEntryValue]

/-- C7: for every `DataSource` with an id and a `columnObject` child (ids
assumed distinct among such entries), the table dict maps that id to exactly
`"<schemaName>.<columnObjectName>"`; a key carried by no kept `DataSource`
(in particular the id of one lacking `columnObject`, when no kept entry
shares it) is absent; and an id absent from the dict falls back to itself as
the literal table reference. -/
theorem data_source_table_exact (root : XmlElem)
    (hnodup : ((keptDataSources root).map (fun ds => ds.get "id")).Nodup) :
    (∀ ds ∈ keptDataSources root, ∀ co, findChild ds "columnObject" = some co →
      dictGet (buildDataSourcesDict root) (ds.get "id") =
        some (pyStr (co.get "schemaName") ++ "." ++
          pyStr (co.get "columnObjectName"))) ∧
    (∀ k : Option String, (∀ ds ∈ keptDataSources root, ds.get "id" ≠ k) →
      dictGet (buildDataSourcesDict root) k = none) ∧
    (∀ ds_id : String, dictGet (buildDataSourcesDict root) (some ds_id) = none →
      tableRef (buildDataSourcesDict root) ds_id = ds_id) := by
  have hform : buildDataSourcesDict root =
      (keptDataSources root).map (fun ds => (ds.get "id", dsEntryValue ds)) := by
    rw [buildDataSourcesDict_eq_kept_fold root]
    exact foldl_dictInsert_fresh _ _ (keptDataSources root) [] hnodup (by simp)
  refine ⟨fun ds hds co hco => ?_, fun k hk => ?_, fun ds_id h => ?_⟩
  · rw [hform,
      dictGet_map_mem (fun ds => ds.get "id") dsEntryValue
        (keptDataSources root) ds hds hnodup]
    unfold dsEntryValue
    rw [hco]
  · rw [hform]
    exact dictGet_map_not_mem _ _ (keptDataSources root) k hk
  · unfold tableRef
    rw [h]
    rfl

/-- A `DataSource` with a `columnObject` child (`SAPSR3.CSKB`). -/
def dsWithCO : XmlElem :=
  XmlElem.mk "DataSource" [("id", "CSKB")]
    [XmlElem.mk "columnObject"
      [("schemaName", "SAPSR3"), ("columnObjectName", "CSKB")] [] none] none

/-- A `DataSource` without a `columnObject` child. -/
def dsNoCO : XmlElem := XmlElem.mk "DataSource" [("id", "ORPHAN")] [] none

/-- A document root with one kept and one skipped `DataSource`. -/
def rootExample : XmlElem :=
  XmlElem.mk "root" []
    [XmlElem.mk "dataSources" [] [dsWithCO, dsNoCO] none] none

/-- Witness for C7: the kept `DataSource` maps to `SAPSR3.CSKB`, the one
without `columnObject` has no entry, and its id falls back to itself. -/
theorem data_source_table_exact_witness :
    ((keptDataSources rootExample).map (fun ds => ds.get "id")).Nodup ∧
    ((∀ ds ∈ keptDataSources rootExample, ∀ co,
        findChild ds "columnObject" = some co →
        dictGet (buildDataSourcesDict rootExample) (ds.get "id") =
          some (pyStr (co.get "schemaName") ++ "." ++
            pyStr (co.get "columnObjectName"))) ∧
     (∀ k : Option String,
        (∀ ds ∈ keptDataSources rootExample, ds.get "id" ≠ k) →
        dictGet (buildDataSourcesDict rootExample) k = none) ∧
     (∀ ds_id : String,
        dictGet (buildDataSourcesDict rootExample) (some ds_id) = none →
        tableRef (buildDataSourcesDict rootExample) ds_id = ds_id)) ∧
    dictGet (buildDataSourcesDict rootExample) (some "CSKB") =
      some "SAPSR3.CSKB" ∧
    dictGet (buildDataSourcesDict rootExample) (some "ORPHAN") = none ∧
    tableRef (buildDataSourcesDict rootExample) "ORPHAN" = "ORPHAN" :=
  ⟨by decide, data_source_table_exact rootExample (by decide),
   by decide, by decide, by decide⟩
